import Mathlib

/-!
Verification of the `ai-guide` repository.

Part 1 models the two mock tool functions of
`src/notebooks/day1_ai_agent_basics.ipynb`:

  def calculator(expression: str) -> str:
      try:
          result = eval(expression)
          return f"计算结果: {result}"
      except Exception as e:
          return f"计算错误: {str(e)}"

  def get_weather(city: str) -> str:
      weather_data = {"北京": "晴天，温度25°C", "上海": "多云，温度22°C",
                      "广州": "小雨，温度28°C"}
      return weather_data.get(city, "未找到该城市的天气信息")

The Python builtin `eval` is external to the repository; it is modelled
here on the fragment of Python expressions the notebook's tool can meet:
integer literals, string literals, identifiers, the binary operators
`+ - *`, unary minus, parentheses, and calls of the builtin `print`
(whose effect on standard output is threaded explicitly, since `eval`
may write to stdout).  Evaluation returns either a Python value or the
`str(e)` message of the raised exception, together with the text the
evaluation printed before returning or raising.
-/

/-- A Python value producible by the modelled `eval` fragment. -/
inductive PyVal where
  | intV (n : Int)
  | strV (s : String)
  | noneV
deriving Repr, DecidableEq

/-- Python `str()` of a value, as used by the f-string `f"计算结果: {result}"`. -/
def PyVal.pystr : PyVal → String
  | .intV n => toString n
  | .strV s => s
  | .noneV => "None"

/-- Python type name of a value, as appears in `TypeError` messages. -/
def PyVal.typeName : PyVal → String
  | .intV _ => "int"
  | .strV _ => "str"
  | .noneV => "NoneType"

/-- A value is numeric when it is an `int` (the fragment has no floats). -/
def PyVal.isNumeric : PyVal → Bool
  | .intV _ => true
  | _ => false

/-- Tokens of the modelled Python expression fragment. -/
inductive Tok where
  | num (n : Nat)
  | strLit (s : String)
  | name (s : String)
  | plus
  | minus
  | star
  | lpar
  | rpar
deriving Repr, DecidableEq

/-- `str(e)` of the `SyntaxError` CPython raises on a malformed expression. -/
def synErrMsg : String := "invalid syntax (<string>, line 1)"

/-- Read a maximal run of decimal digits, accumulating their value. -/
def readDigits : List Char → Nat → Nat × List Char
  | [], acc => (acc, [])
  | c :: cs, acc =>
    if c.isDigit then readDigits cs (acc * 10 + (c.toNat - 48))
    else (acc, c :: cs)

/-- Read a maximal run of identifier characters. -/
def readName : List Char → List Char × List Char
  | [] => ([], [])
  | c :: cs =>
    if c.isAlpha || c == '_' || c.isDigit then
      match readName cs with
      | (nm, rest) => (c :: nm, rest)
    else ([], c :: cs)

/-- Read the body of a string literal up to the closing quote `q`;
`none` on an unterminated literal. -/
def readStr (q : Char) : List Char → Option (List Char × List Char)
  | [] => none
  | c :: cs =>
    if c == q then some ([], cs)
    else
      match readStr q cs with
      | some (s, rest) => some (c :: s, rest)
      | none => none

/-- Fuelled tokenizer for the fragment; `none` is a syntax error. -/
def tokenizeF : Nat → List Char → Option (List Tok)
  | 0, _ => none
  | _ + 1, [] => some []
  | fuel + 1, c :: cs =>
    if c == ' ' || c == '\t' then tokenizeF fuel cs
    else if c.isDigit then
      match readDigits (c :: cs) 0 with
      | (n, rest) => (tokenizeF fuel rest).map (Tok.num n :: ·)
    else if c.isAlpha || c == '_' then
      match readName (c :: cs) with
      | (nm, rest) => (tokenizeF fuel rest).map (Tok.name (String.mk nm) :: ·)
    else if c == '\x27' || c == '"' then
      match readStr c cs with
      | some (s, rest) => (tokenizeF fuel rest).map (Tok.strLit (String.mk s) :: ·)
      | none => none
    else if c == '+' then (tokenizeF fuel cs).map (Tok.plus :: ·)
    else if c == '-' then (tokenizeF fuel cs).map (Tok.minus :: ·)
    else if c == '*' then (tokenizeF fuel cs).map (Tok.star :: ·)
    else if c == '(' then (tokenizeF fuel cs).map (Tok.lpar :: ·)
    else if c == ')' then (tokenizeF fuel cs).map (Tok.rpar :: ·)
    else none

/-- Abstract syntax of the modelled fragment. -/
inductive PyExpr where
  | lit (v : PyVal)
  | nameRef (s : String)
  | call (f : String) (a : PyExpr)
  | neg (a : PyExpr)
  | add (a b : PyExpr)
  | sub (a b : PyExpr)
  | mul (a b : PyExpr)
deriving Repr, DecidableEq

mutual

/-- expr := term (( `+` | `-` ) term)* -/
def parseExpr : Nat → List Tok → Option (PyExpr × List Tok)
  | 0, _ => none
  | f + 1, ts => do
    let (t1, ts1) ← parseTerm f ts
    parseExprRest f t1 ts1

/-- Left-associated continuation of `parseExpr`. -/
def parseExprRest : Nat → PyExpr → List Tok → Option (PyExpr × List Tok)
  | 0, _, _ => none
  | f + 1, acc, Tok.plus :: ts => do
    let (t, ts1) ← parseTerm f ts
    parseExprRest f (.add acc t) ts1
  | f + 1, acc, Tok.minus :: ts => do
    let (t, ts1) ← parseTerm f ts
    parseExprRest f (.sub acc t) ts1
  | _ + 1, acc, ts => some (acc, ts)

/-- term := atom (`*` atom)* -/
def parseTerm : Nat → List Tok → Option (PyExpr × List Tok)
  | 0, _ => none
  | f + 1, ts => do
    let (a1, ts1) ← parseAtom f ts
    parseTermRest f a1 ts1

/-- Left-associated continuation of `parseTerm`. -/
def parseTermRest : Nat → PyExpr → List Tok → Option (PyExpr × List Tok)
  | 0, _, _ => none
  | f + 1, acc, Tok.star :: ts => do
    let (a, ts1) ← parseAtom f ts
    parseTermRest f (.mul acc a) ts1
  | _ + 1, acc, ts => some (acc, ts)

/-- atom := int | string | NAME `(` expr `)` | NAME | `(` expr `)` | `-` atom -/
def parseAtom : Nat → List Tok → Option (PyExpr × List Tok)
  | 0, _ => none
  | _ + 1, Tok.num n :: ts => some (.lit (.intV (Int.ofNat n)), ts)
  | _ + 1, Tok.strLit s :: ts => some (.lit (.strV s), ts)
  | f + 1, Tok.name nm :: Tok.lpar :: ts => do
    let (a, ts1) ← parseExpr f ts
    match ts1 with
    | Tok.rpar :: ts2 => some (.call nm a, ts2)
    | _ => none
  | _ + 1, Tok.name nm :: ts => some (.nameRef nm, ts)
  | f + 1, Tok.lpar :: ts => do
    let (a, ts1) ← parseExpr f ts
    match ts1 with
    | Tok.rpar :: ts2 => some (a, ts2)
    | _ => none
  | f + 1, Tok.minus :: ts => do
    let (a, ts1) ← parseAtom f ts
    some (.neg a, ts1)
  | _ + 1, _ => none

end

/-- Python string repetition `s * n` (empty for `n ≤ 0`). -/
def strRepeat (s : String) (n : Int) : String :=
  String.join (List.replicate n.toNat s)

/-- Python binary `+` on fragment values. -/
def pyAdd : PyVal → PyVal → Except String PyVal
  | .intV a, .intV b => .ok (.intV (a + b))
  | .strV a, .strV b => .ok (.strV (a ++ b))
  | v1, v2 =>
    .error ("unsupported operand type(s) for +: \x27" ++ v1.typeName ++
      "\x27 and \x27" ++ v2.typeName ++ "\x27")

/-- Python binary `-` on fragment values. -/
def pySub : PyVal → PyVal → Except String PyVal
  | .intV a, .intV b => .ok (.intV (a - b))
  | v1, v2 =>
    .error ("unsupported operand type(s) for -: \x27" ++ v1.typeName ++
      "\x27 and \x27" ++ v2.typeName ++ "\x27")

/-- Python binary `*` on fragment values. -/
def pyMul : PyVal → PyVal → Except String PyVal
  | .intV a, .intV b => .ok (.intV (a * b))
  | .strV s, .intV n => .ok (.strV (strRepeat s n))
  | .intV n, .strV s => .ok (.strV (strRepeat s n))
  | .strV _, v2 =>
    .error ("can\x27t multiply sequence by non-int of type \x27" ++
      v2.typeName ++ "\x27")
  | v1, .strV _ =>
    .error ("can\x27t multiply sequence by non-int of type \x27" ++
      v1.typeName ++ "\x27")
  | v1, v2 =>
    .error ("unsupported operand type(s) for *: \x27" ++ v1.typeName ++
      "\x27 and \x27" ++ v2.typeName ++ "\x27")

/-- Evaluate an expression of the fragment.  Returns the result (a value, or
the `str(e)` of the raised exception) paired with the text printed to
standard output before returning or raising. -/
def evalE : PyExpr → Except String PyVal × String
  | .lit v => (.ok v, "")
  | .nameRef s => (.error ("name \x27" ++ s ++ "\x27 is not defined"), "")
  | .call f a =>
    if f == "print" then
      match evalE a with
      | (.ok v, o) => (.ok .noneV, o ++ v.pystr ++ "\n")
      | (.error m, o) => (.error m, o)
    else
      (.error ("name \x27" ++ f ++ "\x27 is not defined"), "")
  | .neg a =>
    match evalE a with
    | (.ok (.intV n), o) => (.ok (.intV (-n)), o)
    | (.ok v, o) =>
      (.error ("bad operand type for unary -: \x27" ++ v.typeName ++ "\x27"), o)
    | (.error m, o) => (.error m, o)
  | .add a b =>
    match evalE a with
    | (.error m, o) => (.error m, o)
    | (.ok v1, o1) =>
      match evalE b with
      | (.error m, o2) => (.error m, o1 ++ o2)
      | (.ok v2, o2) =>
        match pyAdd v1 v2 with
        | .ok v => (.ok v, o1 ++ o2)
        | .error m => (.error m, o1 ++ o2)
  | .sub a b =>
    match evalE a with
    | (.error m, o) => (.error m, o)
    | (.ok v1, o1) =>
      match evalE b with
      | (.error m, o2) => (.error m, o1 ++ o2)
      | (.ok v2, o2) =>
        match pySub v1 v2 with
        | .ok v => (.ok v, o1 ++ o2)
        | .error m => (.error m, o1 ++ o2)
  | .mul a b =>
    match evalE a with
    | (.error m, o) => (.error m, o)
    | (.ok v1, o1) =>
      match evalE b with
      | (.error m, o2) => (.error m, o1 ++ o2)
      | (.ok v2, o2) =>
        match pyMul v1 v2 with
        | .ok v => (.ok v, o1 ++ o2)
        | .error m => (.error m, o1 ++ o2)

/-- The modelled Python `eval` on a source string: tokenize, parse a full
expression, evaluate.  Any tokenizer or parser failure is the
`SyntaxError` case. -/
def pyEval (input : String) : Except String PyVal × String :=
  match tokenizeF (input.length + 1) input.data with
  | none => (.error synErrMsg, "")
  | some ts =>
    match parseExpr ((ts.length + 1) * 4) ts with
    | some (e, []) => evalE e
    | _ => (.error synErrMsg, "")

/-- The text `pyEval` prints to standard output. -/
def pyEvalOut (input : String) : String := (pyEval input).2

/-- The notebook's `calculator` tool.  The second argument and second
component are the contents of standard output before and after the
call (the call appends whatever the evaluation printed). -/
def calculator (expression : String) (stdout : String) : String × String :=
  match pyEval expression with
  | (.ok v, o) => ("计算结果: " ++ v.pystr, stdout ++ o)
  | (.error m, o) => ("计算错误: " ++ m, stdout ++ o)

/-- The notebook's `weather_data` dictionary, as an association list. -/
def weather_data : List (String × String) :=
  [("北京", "晴天，温度25°C"),
   ("上海", "多云，温度22°C"),
   ("广州", "小雨，温度28°C")]

/-- Python `dict.get(key, fallback)` on an association list. -/
def dictGet (d : List (String × String)) (key fallback : String) : String :=
  match d with
  | [] => fallback
  | (k, v) :: rest => if k == key then v else dictGet rest key fallback

/-- The notebook's `get_weather` tool. -/
def get_weather (city : String) : String :=
  dictGet weather_data city "未找到该城市的天气信息"

/-- `get_weather` run against an explicit standard-output state: its body
performs only a dictionary lookup, so the state passes through untouched. -/
def get_weatherRun (city : String) (stdout : String) : String × String :=
  (get_weather city, stdout)

/-!
Part 2 models the repository's shell scripts:

  * `run_web_simple.sh` and `run_web.sh` (src/unnamed/part_001),
  * `setup.sh` (src/unnamed/part_003),
  * `start.sh` (src/unnamed/part_004),
  * `project/setup.sh` (src/project/setup.sh).

A script is modelled as a function from the state of the world it
observes (installed commands, file contents, reachable services, the
exit code of the foreground command it ends on) and its command-line
arguments to the lines it itself echoes and its exit status.  Output of
external commands (pip, docker, streamlit) is not part of the model;
`out` collects the script's own `echo`/prompt lines.  None of the
scripts use `set -e`, so a failing intermediate command does not
terminate them; a script with no explicit `exit` ends with the status
of its last command.  The bodies of the configuration files the setup
scripts write with `cat > file << EOF` are abstracted as atomic
`FContent` tokens, one per template.
-/

/-- Result of running a script: the lines it echoed and its exit status. -/
structure ScriptRun where
  out : List String
  exitCode : Nat
deriving Repr, DecidableEq

/-- `pat` is a prefix of the second list. -/
def listHasPrefix : List Char → List Char → Bool
  | [], _ => true
  | _ :: _, [] => false
  | p :: ps, c :: cs => p == c && listHasPrefix ps cs

/-- `pat` occurs as a contiguous run somewhere in the second list. -/
def listHasInfix (pat : List Char) : List Char → Bool
  | [] => pat.isEmpty
  | c :: cs => listHasPrefix pat (c :: cs) || listHasInfix pat cs

/-- The string `pat` occurs as a substring of `s`. -/
def strContains (pat s : String) : Bool :=
  listHasInfix pat.data s.data

/-- `grep -q "sk-" .env 2>/dev/null`: true iff `.env` exists and its
content contains the substring "sk-" (a missing file makes grep fail
with its error output discarded). -/
def grepSkQ : Option String → Bool
  | Option.none => false
  | Option.some content => strContains "sk-" content

/-- The two hint lines every launch script prints when the `.env` check
fails. -/
def envHintLines : List String :=
  ["⚠️  请先在 .env 文件中配置 OPENAI_API_KEY",
   "编辑命令: nano .env"]

/-- The world a launch script observes. -/
structure LaunchWorld where
  dotenv : Option String
  mcpServerRunning : Bool
  userConfirmsBackground : Bool
  backgroundPid : Nat
  postgresReachable : Bool
  dockerComposeInstalled : Bool
  streamlitExitCode : Nat
  pythonServerExitCode : Nat
deriving Repr, DecidableEq

/-- `run_web_simple.sh` after the `.env` check: echoes its banner lines
and ends with `streamlit run`, whose status becomes the script's. -/
def run_web_simple_main (w : LaunchWorld) : ScriptRun :=
  { out := ["🌐 启动Web界面...",
            "🔗 访问地址: http://localhost:8501",
            "🔧 使用 Ctrl+C 停止服务",
            "",
            "💡 这是简化版界面，直接使用RAG功能，无需MCP服务"],
    exitCode := w.streamlitExitCode }

/-- `run_web_simple.sh` (first script of src/unnamed/part_001). -/
def run_web_simple_sh (w : LaunchWorld) (_args : List String) : ScriptRun :=
  let banner := ["🚀 启动智能文档助手Web界面（简化版）..."]
  if grepSkQ w.dotenv then
    { out := banner ++ (run_web_simple_main w).out,
      exitCode := (run_web_simple_main w).exitCode }
  else
    { out := banner ++ envHintLines, exitCode := 1 }

/-- Lines of `run_web.sh`'s MCP-service check (warning, prompt and the
background-launch messages when the user confirms). -/
def run_web_mcp_lines (w : LaunchWorld) : List String :=
  if w.mcpServerRunning then []
  else
    ["⚠️  MCP服务未运行，请先在另一个终端运行: ./start.sh",
     "💡 提示: 需要同时运行MCP服务和Web界面",
     "是否在后台启动MCP服务？(y/n) ",
     ""] ++
    (if w.userConfirmsBackground then
       ["🚀 在后台启动MCP服务...",
        "✅ MCP服务已在后台启动 (PID: " ++ toString w.backgroundPid ++ ")"]
     else [])

/-- `run_web.sh` after the `.env` check: MCP status check (exiting 1 when
the service is down and the user declines the background launch), then
`streamlit run`. -/
def run_web_main (w : LaunchWorld) : ScriptRun :=
  if w.mcpServerRunning || w.userConfirmsBackground then
    { out := ["🔍 检查MCP服务状态..."] ++ run_web_mcp_lines w ++
             ["🌐 启动Web界面...",
              "🔗 访问地址: http://localhost:8501",
              "🔧 使用 Ctrl+C 停止服务"],
      exitCode := w.streamlitExitCode }
  else
    { out := ["🔍 检查MCP服务状态..."] ++ run_web_mcp_lines w, exitCode := 1 }

/-- `run_web.sh` (second script of src/unnamed/part_001). -/
def run_web_sh (w : LaunchWorld) (_args : List String) : ScriptRun :=
  let banner := ["🚀 启动智能文档助手Web界面..."]
  if grepSkQ w.dotenv then
    { out := banner ++ (run_web_main w).out,
      exitCode := (run_web_main w).exitCode }
  else
    { out := banner ++ envHintLines, exitCode := 1 }

/-- `start.sh` after the `.env` check: PostgreSQL check (exit 1 on
failure), optional Redis start, then `python mcp_services/rag_service/server.py`,
whose status becomes the script's. -/
def start_main (w : LaunchWorld) : ScriptRun :=
  if w.postgresReachable then
    { out := ["🗄️  检查PostgreSQL连接...",
              "✅ PostgreSQL连接正常 (使用现有fusion_postgres容器)"] ++
             (if w.dockerComposeInstalled then ["🐳 启动Redis服务..."]
              else ["⚠️  Docker Compose 未安装，将使用内存缓存"]) ++
             ["📚 启动RAG MCP服务...",
              "🔧 使用 Ctrl+C 停止服务",
              "💡 提示: 这是一个MCP服务器，需要MCP客户端连接"],
      exitCode := w.pythonServerExitCode }
  else
    { out := ["🗄️  检查PostgreSQL连接...",
              "❌ PostgreSQL连接失败，请检查fusion_postgres容器"],
      exitCode := 1 }

/-- `start.sh` (src/unnamed/part_004). -/
def start_sh (w : LaunchWorld) (_args : List String) : ScriptRun :=
  let banner := ["🚀 启动智能文档助手系统..."]
  if grepSkQ w.dotenv then
    { out := banner ++ (start_main w).out,
      exitCode := (start_main w).exitCode }
  else
    { out := banner ++ envHintLines, exitCode := 1 }

/-- Content of a file in the setup model: one atomic token per template
the setup scripts write with a heredoc, or user-supplied content. -/
inductive FContent where
  | envExampleT
  | composeT
  | requirementsT
  | startShT
  | testPyT
  | projEnvExampleT
  | projComposeT
  | projRequirementsT
  | user (s : String)
deriving Repr, DecidableEq

/-- The environment `setup.sh` probes. -/
structure SetupEnv where
  python3Installed : Bool
  venvModuleInstalled : Bool
  pip3Installed : Bool
  venvCreateSucceeds : Bool
deriving Repr, DecidableEq

/-- The project files `setup.sh` (src/unnamed/part_003) reads or writes. -/
structure FS where
  dirsCreated : Bool
  venvDir : Bool
  venvActivate : Bool
  envExample : Option FContent
  dotenv : Option FContent
  dockerCompose : Option FContent
  requirementsTxt : Option FContent
  startShFile : Option FContent
  testPyFile : Option FContent
deriving Repr, DecidableEq

/-- `if [ -d "venv" ]; then rm -rf venv; fi`. -/
def venvCleanup (fs : FS) : FS :=
  if fs.venvDir then { fs with venvDir := false, venvActivate := false } else fs

/-- `python3 -m venv venv`: on success creates the directory together
with `venv/bin/activate`; on failure leaves the state unchanged. -/
def venvCreate (e : SetupEnv) (fs : FS) : FS :=
  if e.venvCreateSucceeds then { fs with venvDir := true, venvActivate := true }
  else fs

/-- The closing echo block of `setup.sh` (src/unnamed/part_003). -/
def setupFinaleLines : List String :=
  ["",
   "✅ 环境设置完成！",
   "",
   "📋 下一步操作：",
   "1. 配置API密钥: nano .env",
   "2. 测试环境: python test.py",
   "3. 启动系统: ./start.sh"]

/-- `setup.sh` (src/unnamed/part_003): dependency checks (exit 1 on a
missing prerequisite), directory creation, venv cleanup and recreation
(exit 1 when `venv/bin/activate` is missing afterwards), template
writes, and the guarded `cp .env.example .env`. -/
def setup_sh (e : SetupEnv) (_args : List String) (fs : FS) : FS × ScriptRun :=
  let header := ["🚀 开始设置智能文档助手系统...", "🔍 检查系统依赖..."]
  if ¬ e.python3Installed then
    (fs, { out := header ++ ["❌ Python3 未安装，请先运行: sudo apt install python3"],
           exitCode := 1 })
  else if ¬ e.venvModuleInstalled then
    (fs, { out := header ++ ["❌ python3-venv 未安装，请先运行: sudo apt install python3-venv"],
           exitCode := 1 })
  else if ¬ e.pip3Installed then
    (fs, { out := header ++ ["❌ pip3 未安装，请先运行: sudo apt install python3-pip"],
           exitCode := 1 })
  else
    let out1 := header ++ ["✅ 系统依赖检查通过", "📁 创建项目目录结构..."]
    let fs1 := { fs with dirsCreated := true }
    let cleanLines := if fs1.venvDir then ["🧹 清理旧的虚拟环境..."] else []
    let fs2 := venvCleanup fs1
    let out2 := out1 ++ cleanLines ++ ["🐍 创建Python虚拟环境..."]
    let fs3 := venvCreate e fs2
    if ¬ fs3.venvActivate then
      (fs3, { out := out2 ++ ["❌ 虚拟环境创建失败"], exitCode := 1 })
    else
      let out3 := out2 ++
        ["⚡ 激活虚拟环境...",
         "📦 安装依赖包...",
         "🔧 创建环境配置文件...",
         "🐳 创建Docker配置...",
         "📝 创建requirements.txt...",
         "🚀 创建启动脚本...",
         "🧪 创建测试脚本..."]
      let fs4 := { fs3 with envExample := some FContent.envExampleT,
                            dockerCompose := some FContent.composeT,
                            requirementsTxt := some FContent.requirementsT,
                            startShFile := some FContent.startShT,
                            testPyFile := some FContent.testPyT }
      match fs4.dotenv with
      | Option.none =>
        ({ fs4 with dotenv := fs4.envExample },
         { out := out3 ++ ["✅ 环境配置文件已创建，请编辑 .env 文件添加你的API密钥"] ++
                  setupFinaleLines,
           exitCode := 0 })
      | Option.some _ =>
        (fs4, { out := out3 ++ ["✅ .env 文件已存在"] ++ setupFinaleLines,
                exitCode := 0 })

/-- The project files `src/project/setup.sh` writes. -/
structure ProjFS where
  dirsCreated : Bool
  venvDir : Bool
  envExample : Option FContent
  dockerCompose : Option FContent
  requirementsTxt : Option FContent
deriving Repr, DecidableEq

/-- `src/project/setup.sh`: an unconditional linear sequence (no checks,
no `exit` statements); its venv creation neither removes an existing
directory nor verifies the result.  The script always ends in its echo
block, so its status is 0. -/
def project_setup_sh (e : SetupEnv) (_args : List String) (fs : ProjFS) :
    ProjFS × ScriptRun :=
  let fs1 := { fs with dirsCreated := true,
                       venvDir := (if e.venvCreateSucceeds then true else fs.venvDir),
                       envExample := some FContent.projEnvExampleT,
                       dockerCompose := some FContent.projComposeT,
                       requirementsTxt := some FContent.projRequirementsT }
  (fs1,
   { out := ["🚀 开始设置智能文档助手系统...",
             "📁 创建项目目录结构...",
             "🐍 创建Python虚拟环境...",
             "📦 安装依赖包...",
             "🔧 创建环境配置文件...",
             "🐳 创建Docker配置...",
             "📝 创建requirements.txt...",
             "✅ 环境设置完成！",
             "",
             "下一步：",
             "1. 复制 .env.example 到 .env 并填写配置",
             "2. 启动数据库服务: docker-compose up -d postgres redis",
             "3. 运行 \x27source venv/bin/activate\x27 激活虚拟环境",
             "4. 开始实现第一个MCP服务"],
     exitCode := 0 })

/-! ### Helper lemmas shared between claims -/

/-- Any city other than the three table keys gets the fallback string. -/
theorem get_weather_not_found (city : String)
    (h1 : city ≠ "北京") (h2 : city ≠ "上海") (h3 : city ≠ "广州") :
    get_weather city = "未找到该城市的天气信息" := by
  simp [get_weather, weather_data, dictGet, beq_iff_eq,
    Ne.symm h1, Ne.symm h2, Ne.symm h3]

/-- The string `calculator` returns does not depend on the prior contents
of standard output. -/
theorem calculator_fst (e σ : String) :
    (calculator e σ).1 = (calculator e "").1 := by
  rcases h : pyEval e with ⟨r, o⟩
  cases r <;> simp [calculator, h]

/-- `calculator` only appends to standard output, and what it appends is
`pyEvalOut` of the expression. -/
theorem calculator_run_eq (e σ : String) :
    calculator e σ = ((calculator e "").1, σ ++ pyEvalOut e) := by
  rcases h : pyEval e with ⟨r, o⟩
  cases r <;> simp [calculator, pyEvalOut, h]

/-- On a fully working environment, `setup.sh` (src/unnamed/part_003)
completes with status 0, leaves the venv created, all five templates
written, and `.env` equal to its old content when present, to the copied
`.env.example` otherwise. -/
theorem setup_sh_run_ok (e : SetupEnv) (args : List String) (fs : FS)
    (hp : e.python3Installed = true) (hv : e.venvModuleInstalled = true)
    (hpip : e.pip3Installed = true) (hc : e.venvCreateSucceeds = true) :
    (setup_sh e args fs).2.exitCode = 0 ∧
    (setup_sh e args fs).1.venvDir = true ∧
    (setup_sh e args fs).1.venvActivate = true ∧
    (setup_sh e args fs).1.envExample = some FContent.envExampleT ∧
    (setup_sh e args fs).1.dockerCompose = some FContent.composeT ∧
    (setup_sh e args fs).1.requirementsTxt = some FContent.requirementsT ∧
    (setup_sh e args fs).1.startShFile = some FContent.startShT ∧
    (setup_sh e args fs).1.testPyFile = some FContent.testPyT ∧
    (setup_sh e args fs).1.dotenv = some (fs.dotenv.getD FContent.envExampleT) := by
  cases hd : fs.dotenv <;> cases hvd : fs.venvDir <;>
    simp [setup_sh, venvCleanup, venvCreate, hp, hv, hpip, hc, hd, hvd]

/-! ### Claims -/

/-- C1: the weather tool maps "北京" to exactly "晴天，温度25°C", and any
input outside the three-city table to exactly the fixed fallback string
"未找到该城市的天气信息". -/
theorem C1_weather_lookup :
    get_weather "北京" = "晴天，温度25°C" ∧
    ∀ city : String, city ≠ "北京" → city ≠ "上海" → city ≠ "广州" →
      get_weather city = "未找到该城市的天气信息" :=
  ⟨by decide, fun city h1 h2 h3 => get_weather_not_found city h1 h2 h3⟩

/-- Witness for C1 at the concrete unknown city "深圳". -/
theorem C1_weather_lookup_witness :
    get_weather "深圳" = "未找到该城市的天气信息" :=
  C1_weather_lookup.2 "深圳" (by decide) (by decide) (by decide)

/-- C2: `calculator "25*4"` returns exactly "计算结果: 100"; on the
malformed expression "2+" it returns a string beginning with "计算错误:"
that contains the raised exception's message (the `SyntaxError` text). -/
theorem C2_calculator_examples (stdout : String) :
    (calculator "25*4" stdout).1 = "计算结果: 100" ∧
    (calculator "2+" stdout).1 = "计算错误: " ++ synErrMsg ∧
    listHasPrefix "计算错误:".data (calculator "2+" stdout).1.data = true ∧
    strContains synErrMsg (calculator "2+" stdout).1 = true := by
  have h1 := calculator_fst "25*4" stdout
  have h2 := calculator_fst "2+" stdout
  refine ⟨h1.trans (by decide), h2.trans (by decide), ?_, ?_⟩
  · rw [h2]; decide
  · rw [h2]; decide

/-- Witness for C2 with standard output initially empty. -/
theorem C2_calculator_examples_witness :
    (calculator "25*4" "").1 = "计算结果: 100" ∧
    (calculator "2+" "").1 = "计算错误: " ++ synErrMsg ∧
    listHasPrefix "计算错误:".data (calculator "2+" "").1.data = true ∧
    strContains synErrMsg (calculator "2+" "").1 = true :=
  C2_calculator_examples ""

/-- C3 counterexample: on the input `'abc'` (a Python string literal)
evaluation succeeds with the non-numeric value `'abc'`, and the
calculator returns "计算结果: abc", so not every successfully returned
result is numeric. -/
theorem C3_counterexample :
    (pyEval "\x27abc\x27").1 = Except.ok (PyVal.strV "abc") ∧
    (PyVal.strV "abc").isNumeric = false ∧
    (calculator "\x27abc\x27" "").1 = "计算结果: abc" := by
  refine ⟨by rfl, by decide, by decide⟩

/-- C3 amended: for every input string the calculator returns a string and
never propagates an exception — either "计算结果: " followed by the
`str()` of the value the evaluation produced (which need not be
numeric), or "计算错误: " followed by the exception message. -/
theorem C3_calculator_total (e σ : String) :
    (∃ v : PyVal, (pyEval e).1 = Except.ok v ∧
       (calculator e σ).1 = "计算结果: " ++ v.pystr) ∨
    (∃ m : String, (pyEval e).1 = Except.error m ∧
       (calculator e σ).1 = "计算错误: " ++ m) := by
  rcases h : pyEval e with ⟨r, o⟩
  cases r with
  | ok v => exact Or.inl ⟨v, by simp [h], by simp [calculator, h]⟩
  | error m => exact Or.inr ⟨m, by simp [h], by simp [calculator, h]⟩

/-- Witness for the amended C3 at the concrete input "25*4". -/
theorem C3_calculator_total_witness :
    (∃ v : PyVal, (pyEval "25*4").1 = Except.ok v ∧
       (calculator "25*4" "").1 = "计算结果: " ++ v.pystr) ∨
    (∃ m : String, (pyEval "25*4").1 = Except.error m ∧
       (calculator "25*4" "").1 = "计算错误: " ++ m) :=
  C3_calculator_total "25*4" ""

/-- C4: with the prerequisites available, `setup.sh` on a state in which
the venv directory already exists removes it (`rm -rf venv`), recreates
it, and both this run and a further re-run complete with status 0. -/
theorem C4_setup_rerun (e : SetupEnv) (args args2 : List String) (fs : FS)
    (hp : e.python3Installed = true) (hv : e.venvModuleInstalled = true)
    (hpip : e.pip3Installed = true) (hc : e.venvCreateSucceeds = true)
    (hvenv : fs.venvDir = true) :
    (venvCleanup fs).venvDir = false ∧
    (venvCreate e (venvCleanup fs)).venvDir = true ∧
    (setup_sh e args fs).2.exitCode = 0 ∧
    (setup_sh e args fs).1.venvDir = true ∧
    (setup_sh e args2 (setup_sh e args fs).1).2.exitCode = 0 ∧
    (setup_sh e args2 (setup_sh e args fs).1).1.venvDir = true := by
  have h1 := setup_sh_run_ok e args fs hp hv hpip hc
  have h2 := setup_sh_run_ok e args2 (setup_sh e args fs).1 hp hv hpip hc
  exact ⟨by simp [venvCleanup, hvenv], by simp [venvCleanup, venvCreate, hc],
    h1.1, h1.2.1, h2.1, h2.2.1⟩

/-- Witness for C4 on a concrete state with an existing venv. -/
theorem C4_setup_rerun_witness :
    (venvCleanup ⟨false, true, true, none, none, none, none, none, none⟩).venvDir = false ∧
    (venvCreate ⟨true, true, true, true⟩
      (venvCleanup ⟨false, true, true, none, none, none, none, none, none⟩)).venvDir = true ∧
    (setup_sh ⟨true, true, true, true⟩ []
      ⟨false, true, true, none, none, none, none, none, none⟩).2.exitCode = 0 ∧
    (setup_sh ⟨true, true, true, true⟩ []
      ⟨false, true, true, none, none, none, none, none, none⟩).1.venvDir = true ∧
    (setup_sh ⟨true, true, true, true⟩ []
      (setup_sh ⟨true, true, true, true⟩ []
        ⟨false, true, true, none, none, none, none, none, none⟩).1).2.exitCode = 0 ∧
    (setup_sh ⟨true, true, true, true⟩ []
      (setup_sh ⟨true, true, true, true⟩ []
        ⟨false, true, true, none, none, none, none, none, none⟩).1).1.venvDir = true :=
  C4_setup_rerun ⟨true, true, true, true⟩ [] []
    ⟨false, true, true, none, none, none, none, none, none⟩ rfl rfl rfl rfl rfl

/-- C5: each launch script proceeds past its API-key configuration check
iff the `.env` content contains the substring "sk-"; when the substring
is absent the script prints the configuration hint and exits with
status 1. -/
theorem C5_env_check (w : LaunchWorld) (args : List String) (c : String)
    (hw : w.dotenv = some c) :
    grepSkQ w.dotenv = strContains "sk-" c ∧
    (strContains "sk-" c = true →
       run_web_simple_sh w args =
         { out := "🚀 启动智能文档助手Web界面（简化版）..." :: (run_web_simple_main w).out,
           exitCode := (run_web_simple_main w).exitCode } ∧
       run_web_sh w args =
         { out := "🚀 启动智能文档助手Web界面..." :: (run_web_main w).out,
           exitCode := (run_web_main w).exitCode } ∧
       start_sh w args =
         { out := "🚀 启动智能文档助手系统..." :: (start_main w).out,
           exitCode := (start_main w).exitCode }) ∧
    (strContains "sk-" c = false →
       (run_web_simple_sh w args).exitCode = 1 ∧
       (run_web_sh w args).exitCode = 1 ∧
       (start_sh w args).exitCode = 1 ∧
       "⚠️  请先在 .env 文件中配置 OPENAI_API_KEY" ∈ (run_web_simple_sh w args).out ∧
       "⚠️  请先在 .env 文件中配置 OPENAI_API_KEY" ∈ (run_web_sh w args).out ∧
       "⚠️  请先在 .env 文件中配置 OPENAI_API_KEY" ∈ (start_sh w args).out) := by
  refine ⟨by simp [grepSkQ, hw], fun h => ?_, fun h => ?_⟩
  · refine ⟨?_, ?_, ?_⟩ <;>
      simp [run_web_simple_sh, run_web_sh, start_sh, grepSkQ, hw, h]
  · refine ⟨?_, ?_, ?_, ?_, ?_, ?_⟩ <;>
      simp [run_web_simple_sh, run_web_sh, start_sh, grepSkQ, hw, h, envHintLines]

/-- Witness for C5 on a concrete world whose `.env` lacks "sk-". -/
theorem C5_env_check_witness :
    grepSkQ (LaunchWorld.mk (some "OPENAI_API_KEY=your_openai_api_key_here")
        true true 0 true true 0 0).dotenv =
      strContains "sk-" "OPENAI_API_KEY=your_openai_api_key_here" ∧
    (strContains "sk-" "OPENAI_API_KEY=your_openai_api_key_here" = true →
       run_web_simple_sh (LaunchWorld.mk (some "OPENAI_API_KEY=your_openai_api_key_here")
           true true 0 true true 0 0) [] =
         { out := "🚀 启动智能文档助手Web界面（简化版）..." ::
             (run_web_simple_main (LaunchWorld.mk (some "OPENAI_API_KEY=your_openai_api_key_here")
               true true 0 true true 0 0)).out,
           exitCode := (run_web_simple_main (LaunchWorld.mk
             (some "OPENAI_API_KEY=your_openai_api_key_here") true true 0 true true 0 0)).exitCode } ∧
       run_web_sh (LaunchWorld.mk (some "OPENAI_API_KEY=your_openai_api_key_here")
           true true 0 true true 0 0) [] =
         { out := "🚀 启动智能文档助手Web界面..." ::
             (run_web_main (LaunchWorld.mk (some "OPENAI_API_KEY=your_openai_api_key_here")
               true true 0 true true 0 0)).out,
           exitCode := (run_web_main (LaunchWorld.mk
             (some "OPENAI_API_KEY=your_openai_api_key_here") true true 0 true true 0 0)).exitCode } ∧
       start_sh (LaunchWorld.mk (some "OPENAI_API_KEY=your_openai_api_key_here")
           true true 0 true true 0 0) [] =
         { out := "🚀 启动智能文档助手系统..." ::
             (start_main (LaunchWorld.mk (some "OPENAI_API_KEY=your_openai_api_key_here")
               true true 0 true true 0 0)).out,
           exitCode := (start_main (LaunchWorld.mk
             (some "OPENAI_API_KEY=your_openai_api_key_here") true true 0 true true 0 0)).exitCode }) ∧
    (strContains "sk-" "OPENAI_API_KEY=your_openai_api_key_here" = false →
       (run_web_simple_sh (LaunchWorld.mk (some "OPENAI_API_KEY=your_openai_api_key_here")
         true true 0 true true 0 0) []).exitCode = 1 ∧
       (run_web_sh (LaunchWorld.mk (some "OPENAI_API_KEY=your_openai_api_key_here")
         true true 0 true true 0 0) []).exitCode = 1 ∧
       (start_sh (LaunchWorld.mk (some "OPENAI_API_KEY=your_openai_api_key_here")
         true true 0 true true 0 0) []).exitCode = 1 ∧
       "⚠️  请先在 .env 文件中配置 OPENAI_API_KEY" ∈
         (run_web_simple_sh (LaunchWorld.mk (some "OPENAI_API_KEY=your_openai_api_key_here")
           true true 0 true true 0 0) []).out ∧
       "⚠️  请先在 .env 文件中配置 OPENAI_API_KEY" ∈
         (run_web_sh (LaunchWorld.mk (some "OPENAI_API_KEY=your_openai_api_key_here")
           true true 0 true true 0 0) []).out ∧
       "⚠️  请先在 .env 文件中配置 OPENAI_API_KEY" ∈
         (start_sh (LaunchWorld.mk (some "OPENAI_API_KEY=your_openai_api_key_here")
           true true 0 true true 0 0) []).out) :=
  C5_env_check (LaunchWorld.mk (some "OPENAI_API_KEY=your_openai_api_key_here")
    true true 0 true true 0 0) [] "OPENAI_API_KEY=your_openai_api_key_here" rfl

/-- C6 counterexample: `calculator "print(1)"` changes state beyond its
return value — the evaluated expression writes "1\n" to standard
output (Python `eval` executes `print`). -/
theorem C6_counterexample :
    calculator "print(1)" "" = ("计算结果: None", "1\n") ∧
    ("1\n" : String) ≠ "" := by
  refine ⟨by decide, by decide⟩

/-- C6 amended: both tools are deterministic functions of their input and
the prior state; `get_weather` leaves all state unchanged, and
`calculator` changes nothing except appending to standard output what
the evaluated expression printed. -/
theorem C6_tools_effects (s σ city : String) :
    calculator s σ = ((calculator s "").1, σ ++ pyEvalOut s) ∧
    get_weatherRun city σ = (get_weather city, σ) :=
  ⟨calculator_run_eq s σ, rfl⟩

/-- Witness for the amended C6 at concrete inputs. -/
theorem C6_tools_effects_witness :
    calculator "print(1)" "log" = ((calculator "print(1)" "").1, "log" ++ pyEvalOut "print(1)") ∧
    get_weatherRun "北京" "log" = (get_weather "北京", "log") :=
  C6_tools_effects "print(1)" "log" "北京"

/-- C7 counterexample: with the API key configured and PostgreSQL
reachable, `start.sh` ends on `python mcp_services/rag_service/server.py`
and terminates with that command's exit status; when that status is 2
(as for a missing `server.py`), the script produces exit status 2,
which is neither 0 nor 1. -/
theorem C7_counterexample :
    (start_sh (LaunchWorld.mk (some "OPENAI_API_KEY=sk-abc") false false 0 true true 0 2)
      []).exitCode = 2 ∧
    (2 : Nat) ≠ 0 ∧ (2 : Nat) ≠ 1 := by
  refine ⟨by decide, by decide, by decide⟩

/-- C7 amended: every script ignores its command-line arguments; each
setup script exits only with 0 or 1, and each launch script exits
either with 1 (missing prerequisite, after printing a hint) or with
the exit status of the foreground command it ends on (streamlit, or
the python MCP server). -/
theorem C7_script_exit_codes (e : SetupEnv) (w : LaunchWorld)
    (args args2 : List String) (fs : FS) (pfs : ProjFS) :
    ((setup_sh e args fs).2.exitCode = 0 ∨ (setup_sh e args fs).2.exitCode = 1) ∧
    (project_setup_sh e args pfs).2.exitCode = 0 ∧
    ((run_web_simple_sh w args).exitCode = 1 ∨
      (run_web_simple_sh w args).exitCode = w.streamlitExitCode) ∧
    ((run_web_sh w args).exitCode = 1 ∨
      (run_web_sh w args).exitCode = w.streamlitExitCode) ∧
    ((start_sh w args).exitCode = 1 ∨
      (start_sh w args).exitCode = w.pythonServerExitCode) ∧
    setup_sh e args fs = setup_sh e args2 fs ∧
    project_setup_sh e args pfs = project_setup_sh e args2 pfs ∧
    run_web_simple_sh w args = run_web_simple_sh w args2 ∧
    run_web_sh w args = run_web_sh w args2 ∧
    start_sh w args = start_sh w args2 := by
  refine ⟨?_, rfl, ?_, ?_, ?_, rfl, rfl, rfl, rfl, rfl⟩
  · cases hp : e.python3Installed <;> cases hv : e.venvModuleInstalled <;>
      cases hpip : e.pip3Installed <;> cases hc : e.venvCreateSucceeds <;>
      cases hvd : fs.venvDir <;> cases hva : fs.venvActivate <;>
      cases hd : fs.dotenv <;>
      simp [setup_sh, venvCleanup, venvCreate, hp, hv, hpip, hc, hvd, hva, hd]
  · cases hg : grepSkQ w.dotenv <;>
      simp [run_web_simple_sh, run_web_simple_main, hg]
  · cases hg : grepSkQ w.dotenv <;>
      cases hm : (w.mcpServerRunning || w.userConfirmsBackground) <;>
      simp [run_web_sh, run_web_main, hg, hm]
  · cases hg : grepSkQ w.dotenv <;> cases hpg : w.postgresReachable <;>
      simp [start_sh, start_main, hg, hpg]

/-- Witness for the amended C7 on concrete inputs. -/
theorem C7_script_exit_codes_witness :
    ((setup_sh ⟨true, true, true, true⟩ ["a"]
        ⟨false, false, false, none, none, none, none, none, none⟩).2.exitCode = 0 ∨
     (setup_sh ⟨true, true, true, true⟩ ["a"]
        ⟨false, false, false, none, none, none, none, none, none⟩).2.exitCode = 1) ∧
    (project_setup_sh ⟨true, true, true, true⟩ ["a"]
        ⟨false, false, none, none, none⟩).2.exitCode = 0 ∧
    ((run_web_simple_sh (LaunchWorld.mk none false false 0 false false 7 2) ["a"]).exitCode = 1 ∨
     (run_web_simple_sh (LaunchWorld.mk none false false 0 false false 7 2) ["a"]).exitCode =
       (LaunchWorld.mk none false false 0 false false 7 2).streamlitExitCode) ∧
    ((run_web_sh (LaunchWorld.mk none false false 0 false false 7 2) ["a"]).exitCode = 1 ∨
     (run_web_sh (LaunchWorld.mk none false false 0 false false 7 2) ["a"]).exitCode =
       (LaunchWorld.mk none false false 0 false false 7 2).streamlitExitCode) ∧
    ((start_sh (LaunchWorld.mk none false false 0 false false 7 2) ["a"]).exitCode = 1 ∨
     (start_sh (LaunchWorld.mk none false false 0 false false 7 2) ["a"]).exitCode =
       (LaunchWorld.mk none false false 0 false false 7 2).pythonServerExitCode) ∧
    setup_sh ⟨true, true, true, true⟩ ["a"]
        ⟨false, false, false, none, none, none, none, none, none⟩ =
      setup_sh ⟨true, true, true, true⟩ ["b"]
        ⟨false, false, false, none, none, none, none, none, none⟩ ∧
    project_setup_sh ⟨true, true, true, true⟩ ["a"] ⟨false, false, none, none, none⟩ =
      project_setup_sh ⟨true, true, true, true⟩ ["b"] ⟨false, false, none, none, none⟩ ∧
    run_web_simple_sh (LaunchWorld.mk none false false 0 false false 7 2) ["a"] =
      run_web_simple_sh (LaunchWorld.mk none false false 0 false false 7 2) ["b"] ∧
    run_web_sh (LaunchWorld.mk none false false 0 false false 7 2) ["a"] =
      run_web_sh (LaunchWorld.mk none false false 0 false false 7 2) ["b"] ∧
    start_sh (LaunchWorld.mk none false false 0 false false 7 2) ["a"] =
      start_sh (LaunchWorld.mk none false false 0 false false 7 2) ["b"] :=
  C7_script_exit_codes ⟨true, true, true, true⟩
    (LaunchWorld.mk none false false 0 false false 7 2) ["a"] ["b"]
    ⟨false, false, false, none, none, none, none, none, none⟩
    ⟨false, false, none, none, none⟩

/-- C8: the lookup table has exactly the keys 北京, 上海, 广州, with 上海
mapped to "多云，温度22°C" and 广州 to "小雨，温度28°C", and `get_weather`
is total with every other input mapped to the fallback string. -/
theorem C8_weather_table :
    weather_data.map Prod.fst = ["北京", "上海", "广州"] ∧
    get_weather "北京" = "晴天，温度25°C" ∧
    get_weather "上海" = "多云，温度22°C" ∧
    get_weather "广州" = "小雨，温度28°C" ∧
    ∀ city : String, city ∉ weather_data.map Prod.fst →
      get_weather city = "未找到该城市的天气信息" := by
  refine ⟨by decide, by decide, by decide, by decide, fun city h => ?_⟩
  simp only [weather_data, List.map, List.mem_cons, List.not_mem_nil,
    or_false, not_or] at h
  exact get_weather_not_found city h.1 h.2.1 h.2.2

/-- Witness for C8 at the concrete unknown city "东京". -/
theorem C8_weather_table_witness :
    get_weather "东京" = "未找到该城市的天气信息" :=
  C8_weather_table.2.2.2.2 "东京" (by decide)

/-- C9: no run of `setup.sh` ever overwrites an existing `.env` file (the
copy from `.env.example` is guarded by `[ ! -f ".env" ]`), a run that
completes on a missing `.env` creates it from the freshly written
`.env.example`, and a completing run rewrites the other generated
files with their templates. -/
theorem C9_env_copy_guard (e : SetupEnv) (args : List String) (fs fs2 : FS)
    (c : FContent) (hd : fs.dotenv = some c) (hd2 : fs2.dotenv = none) :
    (setup_sh e args fs).1.dotenv = some c ∧
    ((setup_sh e args fs2).2.exitCode = 0 →
       (setup_sh e args fs2).1.dotenv = some FContent.envExampleT) ∧
    ((setup_sh e args fs).2.exitCode = 0 →
       (setup_sh e args fs).1.envExample = some FContent.envExampleT ∧
       (setup_sh e args fs).1.dockerCompose = some FContent.composeT ∧
       (setup_sh e args fs).1.requirementsTxt = some FContent.requirementsT ∧
       (setup_sh e args fs).1.startShFile = some FContent.startShT ∧
       (setup_sh e args fs).1.testPyFile = some FContent.testPyT) := by
  refine ⟨?_, ?_, ?_⟩ <;>
    cases hp : e.python3Installed <;> cases hv : e.venvModuleInstalled <;>
    cases hpip : e.pip3Installed <;> cases hc : e.venvCreateSucceeds <;>
    cases hvd : fs.venvDir <;> cases hva : fs.venvActivate <;>
    cases hvd2 : fs2.venvDir <;> cases hva2 : fs2.venvActivate <;>
    simp [setup_sh, venvCleanup, venvCreate, hp, hv, hpip, hc, hvd, hva,
      hvd2, hva2, hd, hd2]

/-- Witness for C9 on concrete states with and without `.env`. -/
theorem C9_env_copy_guard_witness :
    (setup_sh ⟨true, true, true, true⟩ []
      ⟨false, false, false, none, some (FContent.user "OPENAI_API_KEY=sk-abc"),
        none, none, none, none⟩).1.dotenv = some (FContent.user "OPENAI_API_KEY=sk-abc") ∧
    ((setup_sh ⟨true, true, true, true⟩ []
        ⟨false, false, false, none, none, none, none, none, none⟩).2.exitCode = 0 →
       (setup_sh ⟨true, true, true, true⟩ []
         ⟨false, false, false, none, none, none, none, none, none⟩).1.dotenv =
         some FContent.envExampleT) ∧
    ((setup_sh ⟨true, true, true, true⟩ []
        ⟨false, false, false, none, some (FContent.user "OPENAI_API_KEY=sk-abc"),
          none, none, none, none⟩).2.exitCode = 0 →
       (setup_sh ⟨true, true, true, true⟩ []
         ⟨false, false, false, none, some (FContent.user "OPENAI_API_KEY=sk-abc"),
           none, none, none, none⟩).1.envExample = some FContent.envExampleT ∧
       (setup_sh ⟨true, true, true, true⟩ []
         ⟨false, false, false, none, some (FContent.user "OPENAI_API_KEY=sk-abc"),
           none, none, none, none⟩).1.dockerCompose = some FContent.composeT ∧
       (setup_sh ⟨true, true, true, true⟩ []
         ⟨false, false, false, none, some (FContent.user "OPENAI_API_KEY=sk-abc"),
           none, none, none, none⟩).1.requirementsTxt = some FContent.requirementsT ∧
       (setup_sh ⟨true, true, true, true⟩ []
         ⟨false, false, false, none, some (FContent.user "OPENAI_API_KEY=sk-abc"),
           none, none, none, none⟩).1.startShFile = some FContent.startShT ∧
       (setup_sh ⟨true, true, true, true⟩ []
         ⟨false, false, false, none, some (FContent.user "OPENAI_API_KEY=sk-abc"),
           none, none, none, none⟩).1.testPyFile = some FContent.testPyT) :=
  C9_env_copy_guard ⟨true, true, true, true⟩ []
    ⟨false, false, false, none, some (FContent.user "OPENAI_API_KEY=sk-abc"),
      none, none, none, none⟩
    ⟨false, false, false, none, none, none, none, none, none⟩
    (FContent.user "OPENAI_API_KEY=sk-abc") rfl rfl

/-- C10: a missing `.env` behaves exactly like an existing `.env` without
the substring "sk-": each launch script produces the same run (same
printed lines, same status 1, with the configuration hint printed). -/
theorem C10_missing_env (w : LaunchWorld) (args : List String) (c : String)
    (hc : strContains "sk-" c = false) :
    run_web_simple_sh { w with dotenv := none } args =
      run_web_simple_sh { w with dotenv := some c } args ∧
    run_web_sh { w with dotenv := none } args =
      run_web_sh { w with dotenv := some c } args ∧
    start_sh { w with dotenv := none } args =
      start_sh { w with dotenv := some c } args ∧
    (run_web_simple_sh { w with dotenv := none } args).exitCode = 1 ∧
    (run_web_sh { w with dotenv := none } args).exitCode = 1 ∧
    (start_sh { w with dotenv := none } args).exitCode = 1 ∧
    "⚠️  请先在 .env 文件中配置 OPENAI_API_KEY" ∈
      (run_web_simple_sh { w with dotenv := none } args).out := by
  refine ⟨?_, ?_, ?_, ?_, ?_, ?_, ?_⟩ <;>
    simp [run_web_simple_sh, run_web_sh, start_sh, grepSkQ, hc, envHintLines]

/-- Witness for C10 with the template `.env.example` content. -/
theorem C10_missing_env_witness :
    run_web_simple_sh { LaunchWorld.mk (some "x") true true 0 true true 0 0 with
        dotenv := none } [] =
      run_web_simple_sh { LaunchWorld.mk (some "x") true true 0 true true 0 0 with
        dotenv := some "OPENAI_API_KEY=your_openai_api_key_here" } [] ∧
    run_web_sh { LaunchWorld.mk (some "x") true true 0 true true 0 0 with
        dotenv := none } [] =
      run_web_sh { LaunchWorld.mk (some "x") true true 0 true true 0 0 with
        dotenv := some "OPENAI_API_KEY=your_openai_api_key_here" } [] ∧
    start_sh { LaunchWorld.mk (some "x") true true 0 true true 0 0 with
        dotenv := none } [] =
      start_sh { LaunchWorld.mk (some "x") true true 0 true true 0 0 with
        dotenv := some "OPENAI_API_KEY=your_openai_api_key_here" } [] ∧
    (run_web_simple_sh { LaunchWorld.mk (some "x") true true 0 true true 0 0 with
        dotenv := none } []).exitCode = 1 ∧
    (run_web_sh { LaunchWorld.mk (some "x") true true 0 true true 0 0 with
        dotenv := none } []).exitCode = 1 ∧
    (start_sh { LaunchWorld.mk (some "x") true true 0 true true 0 0 with
        dotenv := none } []).exitCode = 1 ∧
    "⚠️  请先在 .env 文件中配置 OPENAI_API_KEY" ∈
      (run_web_simple_sh { LaunchWorld.mk (some "x") true true 0 true true 0 0 with
        dotenv := none } []).out :=
  C10_missing_env (LaunchWorld.mk (some "x") true true 0 true true 0 0) []
    "OPENAI_API_KEY=your_openai_api_key_here" (by decide)
